import Mathlib

/-!
Verification development for the DiscordPlus helper layer
(`src/discordplus/classes.py`).

The Python source is shallowly embedded: discord users, channels and
messages are identified by their numeric ids (discord.py compares `User`
and `Member` objects by id); emoji are represented by their string form
(`str` on a string is the identity, so `str(reaction.emoji) in
[str(e) for e in emotes]` becomes plain list membership when the emote
set holds strings); side effects scheduled with `asyncio.ensure_future`
are collected into explicit effect lists; Python exceptions are
represented with `Except String`, a raised exception being an
`Except.error` carrying the exception name.
-/

set_option autoImplicit false

/-- A reaction argument of a `check_reaction` predicate: `reaction.message.id`
and `str(reaction.emoji)`. -/
structure Reaction where
  messageId : Nat
  emoji : String
  deriving DecidableEq, Repr

/-- Side effect scheduled by `check_reaction` via `asyncio.ensure_future`:
`reaction.remove(user)` on the given message for the given user. -/
inductive ReactionEffect where
  | removeReaction : Nat → Nat → ReactionEffect
  deriving DecidableEq, Repr

/-- `BotPlus.check_reaction` (classes.py lines 107-115): the closure built for a
reaction wait over prompt message `messageId`, target user `targetId`, emote
set `emotes` (`None` when absent), on the bot whose own user id is `selfId`.
Applied to an incoming `(reaction, user)` pair it returns the predicate's
boolean result together with the list of removal side effects it schedules:

    def check(reaction, user):
        if reaction.message.id == message.id and user.id != self.user.id:
            asyncio.ensure_future(reaction.remove(user))
        if user != target or reaction.message.id != message.id:
            return False
        return emotes is None or len(emotes) == 0
               or str(reaction.emoji) in [str(e) for e in emotes]
-/
def check_reaction (selfId messageId targetId : Nat) (emotes : Option (List String))
    (reaction : Reaction) (userId : Nat) : Bool × List ReactionEffect :=
  let effects :=
    if reaction.messageId == messageId && userId != selfId then
      [ReactionEffect.removeReaction reaction.messageId userId]
    else []
  if userId != targetId || reaction.messageId != messageId then
    (false, effects)
  else
    match emotes with
    | none => (true, effects)
    | some es => (es.isEmpty || es.contains reaction.emoji, effects)

/-- The spec's qualification rule for reaction mode, stated in its own words:
the reaction's message id equals the prompt's id, the reactor equals the
target, and the emote set is absent or empty or the string form of the
emoji is a member of it. Used to compare `check_reaction` against the spec. -/
def spec_qualifies (messageId targetId : Nat) (emotes : Option (List String))
    (reaction : Reaction) (userId : Nat) : Prop :=
  reaction.messageId = messageId ∧ userId = targetId ∧
    (emotes = none ∨ emotes = some [] ∨ ∃ es, emotes = some es ∧ reaction.emoji ∈ es)

/-- Claim C1: the reaction-check predicate built by `check_reaction` returns
true (qualifies) if and only if the reaction's message id equals the prompt
message's id, the reacting user equals the target, and the emote set is
absent/empty or the string form of the emoji is a member of it; in every
other case it returns false. -/
theorem check_reaction_qualifies_iff (selfId messageId targetId : Nat)
    (emotes : Option (List String)) (reaction : Reaction) (userId : Nat) :
    (check_reaction selfId messageId targetId emotes reaction userId).1 = true ↔
      spec_qualifies messageId targetId emotes reaction userId := by
  unfold check_reaction spec_qualifies
  cases emotes with
  | none =>
    by_cases hu : userId = targetId <;> by_cases hm : reaction.messageId = messageId <;>
      simp [hu, hm]
  | some es =>
    by_cases hu : userId = targetId <;> by_cases hm : reaction.messageId = messageId <;>
      simp [hu, hm, List.isEmpty_iff, List.contains_iff_exists_mem_beq]

/-- Outcome of an `await self.wait_for(...)` call, as seen by the code around
it: the wait resolved with a qualifying event payload, raised
`asyncio.TimeoutError` because the timeout elapsed, or raised some other
exception while waiting. -/
inductive WaitResult (α : Type) where
  | event : α → WaitResult α
  | timedOut : WaitResult α
  | errored : String → WaitResult α
  deriving DecidableEq, Repr

/-- Modelled from the spec: the cleanup helpers `try_delete` and `try_except`
live in the repository's `lib` module, which is not among the sources here;
per the spec they are best-effort idempotent operations whose failures are
swallowed and never propagated, so the `finally` block of `get_reaction` is
represented as emitting exactly one of these never-raising effects. -/
inductive CleanupEffect where
  | deleteMessage : CleanupEffect
  | clearReactions : CleanupEffect
  deriving DecidableEq, Repr

/-- One run of `BotPlus.get_reaction`, recorded piecewise: the emote set it
attached to the prompt and handed to `check_reaction`, the predicate it gave
to `wait_for`, the value the call produces for its caller (`Except.error` for
a propagating exception), and the cleanup effects its `finally` block emitted. -/
structure ReactionWaitRun where
  emotes : Option (List String)
  check : Reaction → Nat → Bool × List ReactionEffect
  result : Except String (Option String)
  cleanup : List CleanupEffect

/-- `BotPlus.get_reaction` (classes.py lines 59-72), relative to the outcome of
the awaited `wait_for`:

    message = await premessage.send(channel)
    await try_add_reaction(message, emotes)
    emoji = None
    try:
        event = await self.wait_for('reaction_add',
            check=self.check_reaction(message, target, emotes), timeout=timeout)
        emoji = event[0].emoji
    finally:
        if delete_after:
            await try_delete(message)
        else:
            await try_except(message.clear_reactions)
    return emoji

The `return emoji` sits after (outside) the `finally` block, so the cleanup
runs on every path, but an exception raised by the wait — in particular the
`asyncio.TimeoutError` that `wait_for` raises when the timeout elapses —
propagates to the caller; only a resolved wait reaches the return. -/
def get_reaction (selfId promptId targetId : Nat) (delete_after : Bool)
    (emotes : Option (List String)) (outcome : WaitResult String) : ReactionWaitRun :=
  { emotes := emotes
    check := check_reaction selfId promptId targetId emotes
    result :=
      match outcome with
      | WaitResult.event emoji => Except.ok (some emoji)
      | WaitResult.timedOut => Except.error "asyncio.TimeoutError"
      | WaitResult.errored e => Except.error e
    cleanup :=
      if delete_after then [CleanupEffect.deleteMessage]
      else [CleanupEffect.clearReactions] }

/-- `BotPlus.confirm` (classes.py lines 55-57):

    emoji = await self.get_reaction(channel, premessage, target, timeout,
                                    delete_after, ['✅', '❌'])
    return None if emoji is None else emoji == '✅'

A propagating exception from `get_reaction` propagates out of `confirm` too. -/
def confirm (selfId promptId targetId : Nat) (delete_after : Bool)
    (outcome : WaitResult String) : ReactionWaitRun × Except String (Option Bool) :=
  let w := get_reaction selfId promptId targetId delete_after (some ["✅", "❌"]) outcome
  (w, w.result.map fun emoji =>
        match emoji with
        | none => none
        | some e => some (e == "✅"))

/-- Claim C7: on every exit path of `get_reaction` — resolution, timeout, or an
error raised while waiting — the `finally` cleanup executes exactly once: the
sent prompt message is deleted when `delete_after` is true, and otherwise all
reactions are cleared from it. -/
theorem get_reaction_cleanup_once (selfId promptId targetId : Nat) (delete_after : Bool)
    (emotes : Option (List String)) (outcome : WaitResult String) :
    (get_reaction selfId promptId targetId delete_after emotes outcome).cleanup =
      [if delete_after then CleanupEffect.deleteMessage else CleanupEffect.clearReactions] := by
  cases delete_after <;> rfl

/-- Claim C3 is refuted by the code: when no qualifying reaction arrives within
the timeout, `wait_for` raises `asyncio.TimeoutError`, and because the
`return emoji` of `get_reaction` lies outside the try/finally, the exception
propagates to the caller after cleanup instead of a none result being
returned. The dead `emoji = None` initialisation and the dead none-branch in
`confirm` show the intended behaviour was to return none. -/
theorem get_reaction_timeout_propagates (selfId promptId targetId : Nat)
    (delete_after : Bool) (emotes : Option (List String)) :
    (get_reaction selfId promptId targetId delete_after emotes WaitResult.timedOut).result =
      Except.error "asyncio.TimeoutError" := rfl

/-- Claim C6: `confirm` always hands `get_reaction` exactly the fixed
two-symbol emote set ✅/❌, maps an affirm reaction to true and a deny
reaction to false — but its timeout leg is refuted: on timeout the underlying
wait raises `asyncio.TimeoutError` rather than yielding none, so `confirm`
propagates the error instead of returning the none value. -/
theorem confirm_emotes_and_mapping (selfId promptId targetId : Nat) (delete_after : Bool) :
    (∀ outcome, (confirm selfId promptId targetId delete_after outcome).1.emotes =
      some ["✅", "❌"]) ∧
    (confirm selfId promptId targetId delete_after (WaitResult.event "✅")).2 =
      Except.ok (some true) ∧
    (confirm selfId promptId targetId delete_after (WaitResult.event "❌")).2 =
      Except.ok (some false) ∧
    (confirm selfId promptId targetId delete_after WaitResult.timedOut).2 =
      Except.error "asyncio.TimeoutError" :=
  ⟨fun _ => rfl, rfl, rfl, rfl⟩

/-- A message event as seen by a `check_message` predicate: channel id, author
id, and text content. -/
structure MessageEvent where
  channelId : Nat
  authorId : Nat
  content : String
  deriving DecidableEq, Repr

/-- The fields of `PreMessage` (classes.py lines 20-31) that the event-wait
subsystem inspects: the embed description text and the auto-delete delay
(`delete_after`, defaulting to `None`). -/
structure PreMessageM where
  description : Option String
  delete_after : Option Nat
  deriving DecidableEq, Repr

/-- Python's two-argument `max` as applied at classes.py line 93: comparing an
`int` against `None` raises `TypeError` in Python 3, so the result is an
`Except`. -/
def pymax : Option Nat → Nat → Except String Nat
  | none, _ => Except.error "TypeError"
  | some a, b => Except.ok (max a b)

/-- The default forbid notice built at classes.py line 92:
`PreMessage(embed=Embed(title='**ERROR**', description=f'Only {target.mention}
can send message here', ...))`; every `PreMessage` field not passed — in
particular `delete_after` — keeps its `None` default. -/
def default_forbid_premessage (targetId : Nat) : PreMessageM :=
  { description := some ("Only <@" ++ toString targetId ++ "> can send message here")
    delete_after := none }

/-- Side effects scheduled by a forbid-mode `check_message` predicate via
`asyncio.ensure_future`: best-effort deletion of the foreign message
(`try_delete`, from the repository's `lib` module, never raises per the spec)
and sending the forbid notice to the channel. -/
inductive MsgEffect where
  | tryDeleteMessage : MessageEvent → MsgEffect
  | sendForbidNotice : Nat → PreMessageM → MsgEffect
  deriving DecidableEq, Repr

/-- `BotPlus.check_message` (classes.py lines 89-105) for channel `channelId`,
target user `targetId`, on the bot whose own user id is `selfId`:

    if forbid:
        if forbid_premessage is None:
            forbid_premessage = PreMessage(embed=Embed(..., description=
                f'Only {target.mention} can send message here', ...))
        forbid_premessage.delete_after = max(forbid_premessage.delete_after, 20)

        def check(message):
            if message.channel.id == channel.id and \
               message.author.id not in (target.id, self.user.id):
                asyncio.ensure_future(try_delete(message))
                asyncio.ensure_future(forbid_premessage.send(channel))
                return False
            return message.channel.id == channel.id and message.author.id == target.id
    else:
        def check(message):
            return message.channel.id == channel.id and message.author.id == target.id
    return check

Building the closure itself can raise: `max(None, 20)` is a `TypeError` in
Python 3, which happens whenever `forbid` is true and the (given or default)
forbid premessage has no `delete_after` set. -/
def check_message (selfId channelId targetId : Nat) (forbid : Bool)
    (forbid_premessage : Option PreMessageM) :
    Except String (MessageEvent → Bool × List MsgEffect) :=
  if forbid then
    let fp := forbid_premessage.getD (default_forbid_premessage targetId)
    match pymax fp.delete_after 20 with
    | Except.error e => Except.error e
    | Except.ok d =>
      let fp2 := { fp with delete_after := some d }
      Except.ok fun m =>
        if m.channelId == channelId && !(m.authorId == targetId || m.authorId == selfId) then
          (false, [MsgEffect.tryDeleteMessage m, MsgEffect.sendForbidNotice channelId fp2])
        else
          (m.channelId == channelId && m.authorId == targetId, [])
  else
    Except.ok fun m => (m.channelId == channelId && m.authorId == targetId, [])

/-- Cleanup effects emitted by the `finally` block of `get_answer`:
best-effort deletion of the prompt message and of the qualifying respond
message (`try_delete(None)` when the wait never resolved). -/
inductive AnswerEffect where
  | tryDeletePrompt : AnswerEffect
  | tryDeleteRespond : Option MessageEvent → AnswerEffect
  deriving DecidableEq, Repr

/-- `BotPlus.get_answer` (classes.py lines 74-87), relative to the outcome of
the awaited `wait_for`:

    message = await premessage.send(channel)
    content = None
    respond = None
    try:
        respond = await self.wait_for('message',
            check=self.check_message(channel, target, forbid, forbid_premessage),
            timeout=timeout)
        content = respond.content
    finally:
        if delete_after:
            await try_delete(message)
            await try_delete(respond)
        return content

The `return content` sits inside the `finally` block, which in Python discards
any in-flight exception — the `asyncio.TimeoutError` from a timeout, any other
error raised by the wait, and even the `TypeError` raised while building the
check (the `check_message(...)` argument is evaluated inside the try). So the
call always returns: the qualifying reply's content on resolution, and
`None` on every exceptional path. -/
def get_answer (selfId channelId targetId : Nat) (delete_after forbid : Bool)
    (forbid_premessage : Option PreMessageM) (outcome : WaitResult MessageEvent) :
    Option String × List AnswerEffect :=
  let tried : Except String (Option String × Option MessageEvent) :=
    match check_message selfId channelId targetId forbid forbid_premessage with
    | Except.error e => Except.error e
    | Except.ok _ =>
      match outcome with
      | WaitResult.event m => Except.ok (some m.content, some m)
      | WaitResult.timedOut => Except.error "asyncio.TimeoutError"
      | WaitResult.errored e => Except.error e
  let pair :=
    match tried with
    | Except.ok p => p
    | Except.error _ => (none, none)
  (pair.1,
   if delete_after then [AnswerEffect.tryDeletePrompt, AnswerEffect.tryDeleteRespond pair.2]
   else [])

/-- Claim C2 is refuted by the code: with forbid active and the default
standardized notice (forbid_premessage absent), classes.py line 93 computes
`max(None, 20)`, a `TypeError` in Python 3, so building the check raises
before any message event can be examined — no foreign message is ever
deleted, no standardized notice is ever posted, and `get_answer` (whose
finally-return swallows the error) returns none immediately. -/
theorem check_message_forbid_default_typeerror (selfId channelId targetId : Nat)
    (delete_after : Bool) (outcome : WaitResult MessageEvent) :
    check_message selfId channelId targetId true none = Except.error "TypeError" ∧
    (get_answer selfId channelId targetId delete_after true none outcome).1 = none :=
  ⟨rfl, rfl⟩

/-- Claim C9: `get_answer` never propagates an exception to its caller: because
its return statement sits inside the finally block, a timeout and any other
exception raised by the awaited wait (or while building the check) are
silently turned into a none result, and a qualifying reply yields that
reply's text content. -/
theorem get_answer_never_raises (selfId channelId targetId : Nat)
    (delete_after forbid : Bool) (fp : Option PreMessageM) :
    ((get_answer selfId channelId targetId delete_after forbid fp WaitResult.timedOut).1
      = none) ∧
    (∀ e, (get_answer selfId channelId targetId delete_after forbid fp
      (WaitResult.errored e)).1 = none) ∧
    (∀ m c, check_message selfId channelId targetId forbid fp = Except.ok c →
      (get_answer selfId channelId targetId delete_after forbid fp
        (WaitResult.event m)).1 = some m.content) := by
  refine ⟨?_, fun e => ?_, fun m c hc => ?_⟩
  · unfold get_answer
    cases check_message selfId channelId targetId forbid fp <;> rfl
  · unfold get_answer
    cases check_message selfId channelId targetId forbid fp <;> rfl
  · unfold get_answer
    rw [hc]

/-- Concrete instance of `get_answer_never_raises`: target user 2 replying
"hello" in channel 5 resolves with "hello", and a timed-out wait yields none. -/
theorem get_answer_never_raises_witness :
    (get_answer 1 5 2 false false none (WaitResult.event ⟨5, 2, "hello"⟩)).1 = some "hello" ∧
    (get_answer 1 5 2 false false none WaitResult.timedOut).1 = none :=
  ⟨(get_answer_never_raises 1 5 2 false false none).2.2 ⟨5, 2, "hello"⟩ _ rfl,
   (get_answer_never_raises 1 5 2 false false none).1⟩

/-- `API.vote` (classes.py lines 217-230), as a function of the configured
credential (`self._auth`, set by `set_auth`, initially `None`), the request's
`Authorization` header (`None` when absent) and the body's `type` field
(`None` when absent). It returns the HTTP status and the list of synthetic
events dispatched via `self.bot.dispatch`:

    req_auth = request.headers.get('Authorization')
    if self._auth == req_auth and self._auth is not None:
        data = request.json or request.form or request.args or {}
        if data.get('type', None) == 'upvote':
            event_name = 'vote'
        elif data.get('type', None) == 'test':
            event_name = 'test_vote'
        else:
            return Response(status=401)
        self.bot.dispatch(event_name, data)
        return Response(status=200)
    else:
        return Response(status=401)
-/
def vote (auth reqAuth btype : Option String) : Nat × List String :=
  if auth == reqAuth && auth.isSome then
    if btype == some "upvote" then (200, ["vote"])
    else if btype == some "test" then (200, ["test_vote"])
    else (401, [])
  else (401, [])

/-- Claim C4: `POST /vote` replies 401 with no event dispatched unless a
credential is configured and the request's Authorization header exactly
equals it; with a correct credential, type "upvote" dispatches exactly one
synthetic vote event with status 200, type "test" exactly one test_vote
event with status 200, and any other type replies 401 with zero events. -/
theorem vote_auth_and_dispatch (auth reqAuth btype : Option String) :
    ((auth = none ∨ reqAuth ≠ auth) → vote auth reqAuth btype = (401, [])) ∧
    (auth ≠ none → reqAuth = auth → btype = some "upvote" →
      vote auth reqAuth btype = (200, ["vote"])) ∧
    (auth ≠ none → reqAuth = auth → btype = some "test" →
      vote auth reqAuth btype = (200, ["test_vote"])) ∧
    (auth ≠ none → reqAuth = auth → btype ≠ some "upvote" → btype ≠ some "test" →
      vote auth reqAuth btype = (401, [])) := by
  refine ⟨?_, ?_, ?_, ?_⟩ <;> unfold vote
  · rintro (h | h)
    · simp [h]
    · have h2 : auth ≠ reqAuth := fun hh => h hh.symm
      simp [h2]
  · intro ha hr hb
    subst hr
    subst hb
    simp [Option.ne_none_iff_isSome.mp ha]
  · intro ha hr hb
    subst hr
    subst hb
    simp [Option.ne_none_iff_isSome.mp ha]
  · intro ha hr h1 h2
    subst hr
    simp [Option.ne_none_iff_isSome.mp ha, h1, h2]

/-- Concrete instance of `vote_auth_and_dispatch`: a correct secret with type
upvote yields 200 and one vote event; a missing header yields 401 and none. -/
theorem vote_auth_and_dispatch_witness :
    vote (some "secret") (some "secret") (some "upvote") = (200, ["vote"]) ∧
    vote (some "secret") none (some "upvote") = (401, []) :=
  ⟨(vote_auth_and_dispatch (some "secret") (some "secret") (some "upvote")).2.1
      (by decide) rfl rfl,
   (vote_auth_and_dispatch (some "secret") none (some "upvote")).1
      (Or.inr (by decide))⟩

/-- A registered cog as the module lifecycle sees it: its qualified name and
its two class-level flags `__disabled__` and `__beta__` (classes.py lines
166-168, set at class-definition time by the `CogPlus.disabled` and
`CogPlus.beta` decorators). -/
structure CogRec where
  name : String
  disabled : Bool
  beta : Bool
  deriving DecidableEq, Repr

/-- The cog registry state of a `BotPlus`: the live dispatch channel `cogs`
(discord.py's name-keyed registry, represented as the association list built
in insertion order) and the `__disabled_cogs` side list (classes.py line 139). -/
structure BotCogs where
  cogs : List (String × CogRec)
  disabled_cogs : List CogRec
  deriving DecidableEq, Repr

/-- `BotPlus.add_cog` (classes.py lines 133-136): attaches the cog to the live
registry under its qualified name. (The console notice printed for a beta cog
is not modelled.) -/
def add_cog (s : BotCogs) (c : CogRec) : BotCogs :=
  { s with cogs := s.cogs ++ [(c.name, c)] }

/-- `BotPlus.load_cog` (classes.py lines 141-149) applied to the instantiated
cog: a disabled cog is appended to the `__disabled_cogs` side list, any other
cog is attached via `add_cog`. (The `TypeError` raised for a class that is
not a `CogPlus` subclass is outside this model, which quantifies over cogs
only.) -/
def load_cog (s : BotCogs) (c : CogRec) : BotCogs :=
  if c.disabled then { s with disabled_cogs := s.disabled_cogs ++ [c] }
  else add_cog s c

/-- `BotPlus.cogs_status` (classes.py lines 125-131): the attached cogs are
labelled BetaEnabled or Enabled by their beta flag, the disabled side list
BetaDisabled or Disabled, and the combined listing is returned (the Python
`dict(cogs)` keyed by name, here the association list it is built from). -/
def cogs_status (s : BotCogs) : List (String × String) :=
  (s.cogs.map fun p => (p.1, if p.2.beta then "BetaEnabled" else "Enabled")) ++
  (s.disabled_cogs.map fun c => (c.name, if c.beta then "BetaDisabled" else "Disabled"))

/-- Claim C5: a disabled cog is kept in the side list and never attached to
the live dispatch channel; the status query assigns every known module one of
the four labels computed from the two flags and attachment state, a disabled
beta module getting exactly BetaDisabled and an attached module with both
flags false exactly Enabled. -/
theorem load_cog_status_invariants (s : BotCogs) (c : CogRec) :
    (c.disabled = true → (load_cog s c).cogs = s.cogs ∧
      (load_cog s c).disabled_cogs = s.disabled_cogs ++ [c]) ∧
    (∀ p ∈ cogs_status s, p.2 = "Enabled" ∨ p.2 = "BetaEnabled" ∨
      p.2 = "Disabled" ∨ p.2 = "BetaDisabled") ∧
    (c.disabled = true → c.beta = true →
      (c.name, "BetaDisabled") ∈ cogs_status (load_cog s c)) ∧
    (c.disabled = false → c.beta = false →
      (c.name, "Enabled") ∈ cogs_status (load_cog s c)) := by
  refine ⟨fun h => ?_, fun p hp => ?_, fun h1 h2 => ?_, fun h1 h2 => ?_⟩
  · simp [load_cog, h]
  · rcases List.mem_append.mp hp with h | h
    · rcases List.mem_map.mp h with ⟨q, hq, rfl⟩
      by_cases hb : q.2.beta
      · exact Or.inr (Or.inl (by simp [hb]))
      · exact Or.inl (by simp [hb])
    · rcases List.mem_map.mp h with ⟨q, hq, rfl⟩
      by_cases hb : q.beta
      · exact Or.inr (Or.inr (Or.inr (by simp [hb])))
      · exact Or.inr (Or.inr (Or.inl (by simp [hb])))
  · simp [load_cog, h1, cogs_status, h2]
  · simp [load_cog, add_cog, h1, cogs_status, h2]

/-- Concrete instance of `load_cog_status_invariants`: loading a disabled beta
cog M into an empty registry leaves the dispatch channel empty and reports M
as BetaDisabled; loading a plain cog N reports N as Enabled. -/
theorem load_cog_status_invariants_witness :
    (load_cog ⟨[], []⟩ ⟨"M", true, true⟩).cogs = [] ∧
    ("M", "BetaDisabled") ∈ cogs_status (load_cog ⟨[], []⟩ ⟨"M", true, true⟩) ∧
    ("N", "Enabled") ∈ cogs_status (load_cog ⟨[], []⟩ ⟨"N", false, false⟩) :=
  ⟨((load_cog_status_invariants ⟨[], []⟩ ⟨"M", true, true⟩).1 rfl).1,
   (load_cog_status_invariants ⟨[], []⟩ ⟨"M", true, true⟩).2.2.1 rfl rfl,
   (load_cog_status_invariants ⟨[], []⟩ ⟨"N", false, false⟩).2.2.2 rfl rfl⟩

/-- The removal side effects of a `check_reaction` predicate are exactly those
scheduled by its first if statement, on every control path. -/
theorem check_reaction_snd (selfId messageId targetId : Nat)
    (emotes : Option (List String)) (reaction : Reaction) (userId : Nat) :
    (check_reaction selfId messageId targetId emotes reaction userId).2 =
      (if reaction.messageId == messageId && userId != selfId then
        [ReactionEffect.removeReaction reaction.messageId userId]
      else []) := by
  unfold check_reaction
  cases emotes <;> dsimp only <;> split <;> rfl

/-- Claim C8: a reaction on the prompt message from a non-bot user that does
not match the target is actively removed (removal scheduled) regardless of
whether it qualifies, and a reaction originating from the bot's own user is
never removed. -/
theorem check_reaction_removes_foreign (selfId messageId targetId : Nat)
    (emotes : Option (List String)) (reaction : Reaction) (userId : Nat) :
    (reaction.messageId = messageId → userId ≠ selfId → userId ≠ targetId →
      (check_reaction selfId messageId targetId emotes reaction userId).2 =
        [ReactionEffect.removeReaction reaction.messageId userId]) ∧
    (userId = selfId →
      (check_reaction selfId messageId targetId emotes reaction userId).2 = []) := by
  constructor
  · intro hm hs ht
    rw [check_reaction_snd]
    simp [hm, hs]
  · intro hs
    rw [check_reaction_snd]
    simp [hs]

/-- Concrete instance of `check_reaction_removes_foreign`: user 3 (neither the
target 2 nor the bot 1) reacting on prompt 10 has the reaction removed, while
the bot's own reaction is left alone. -/
theorem check_reaction_removes_foreign_witness :
    (check_reaction 1 10 2 (some ["✅"]) ⟨10, "✅"⟩ 3).2 =
      [ReactionEffect.removeReaction 10 3] ∧
    (check_reaction 1 10 2 (some ["✅"]) ⟨10, "✅"⟩ 1).2 = [] :=
  ⟨(check_reaction_removes_foreign 1 10 2 (some ["✅"]) ⟨10, "✅"⟩ 3).1 rfl
      (by decide) (by decide),
   (check_reaction_removes_foreign 1 10 2 (some ["✅"]) ⟨10, "✅"⟩ 1).2 rfl⟩

/-- Claim C10: every reaction on the prompt message from any user other than
the bot itself — the target user's own qualifying reaction included — has its
removal scheduled by the check predicate; qualification does not exempt a
reaction from the removal side effect. -/
theorem check_reaction_removes_even_qualifying (selfId messageId targetId : Nat)
    (emotes : Option (List String)) (reaction : Reaction) (userId : Nat) :
    reaction.messageId = messageId → userId ≠ selfId →
      (check_reaction selfId messageId targetId emotes reaction userId).2 =
        [ReactionEffect.removeReaction reaction.messageId userId] := by
  intro hm hs
  rw [check_reaction_snd]
  simp [hm, hs]

/-- Concrete instance of `check_reaction_removes_even_qualifying`: the target
user 2 reacting ✅ on prompt 10 qualifies, and the removal of that very
reaction is still scheduled. -/
theorem check_reaction_removes_even_qualifying_witness :
    (check_reaction 1 10 2 (some ["✅", "❌"]) ⟨10, "✅"⟩ 2).1 = true ∧
    (check_reaction 1 10 2 (some ["✅", "❌"]) ⟨10, "✅"⟩ 2).2 =
      [ReactionEffect.removeReaction 10 2] :=
  ⟨by decide,
   check_reaction_removes_even_qualifying 1 10 2 (some ["✅", "❌"]) ⟨10, "✅"⟩ 2
     rfl (by decide)⟩
